import Mathlib

/-!
Shallow embedding of the ecosystem simulation engine
(`src/store/simulationStore.ts`, plus the per-frame driver in
`src/components/Agents.tsx` and the speed handlers in
`src/components/Controls.tsx`).

Numbers are modelled as real numbers.  Calls to `Math.random()` and
`uuidv4()` are modelled by explicit oracle records: every random draw the
source makes is an explicit input, indexed per agent / per litter / per
candidate pair, so quantifying over the oracle quantifies over every
possible sequence of random outcomes.  `Math.atan2(y, x)` is modelled by
`Complex.arg ⟨x, y⟩`, which has the same value and the same range
`(-π, π]`.  Agent ids (uuid strings in the source) are modelled as
natural numbers.
-/

namespace Ecosim

open Real

noncomputable section

/-- `Vector3` from `src/models/types.ts`. -/
structure Vec3 where
  x : ℝ
  y : ℝ
  z : ℝ

/-- The `gender` field, `'male' | 'female'` in the source. -/
inductive Gender where
  | male : Gender
  | female : Gender
deriving DecidableEq

/-- The `type` field, `'rabbit' | 'fox'` in the source. -/
inductive Species where
  | rabbit : Species
  | fox : Species
deriving DecidableEq

/-- `AgentType` from `src/models/types.ts`.  The optional fields
`isPregnant?` and `pregnancyTime?` are always initialised by the factory
functions, so they are modelled as always present. -/
structure Agent where
  id : ℕ
  position : Vec3
  velocity : Vec3
  energy : ℝ
  age : ℝ
  lastReproduced : ℝ
  type : Species
  gender : Gender
  isPregnant : Bool
  pregnancyTime : ℝ

/-- The state part of `SimulationState` (the zustand store). -/
structure World where
  rabbits : List Agent
  foxes : List Agent
  isPaused : Bool
  speedFactor : ℝ
  showStats : Bool
  showGrid : Bool
  worldSize : ℝ
  simulationTime : ℝ
  selectedAnimal : Option Agent

/-- `Math.atan2 y x`, modelled as the argument of the complex number
`x + y*i`; both have range `(-π, π]` and agree on every input (signed
zero, which ℝ does not have, aside). -/
def atan2 (y x : ℝ) : ℝ := Complex.arg ⟨x, y⟩

/-- `randomPosition` (simulationStore.ts line 6).  `r1`, `r2` are the two
`Math.random()` draws. -/
def randomPosition (worldSize r1 r2 : ℝ) : Vec3 :=
  { x := (r1 * 2 - 1) * worldSize * 0.8
    y := 0
    z := (r2 * 2 - 1) * worldSize * 0.8 }

/-- `randomVelocity` (line 12); `rA` is the `Math.random()` draw. -/
def randomVelocity (speed rA : ℝ) : Vec3 :=
  let angle := rA * π * 2
  { x := Real.cos angle * speed
    y := 0
    z := Real.sin angle * speed }

/-- `randomGender` (line 21); `r` is the `Math.random()` draw. -/
def randomGender (r : ℝ) : Gender :=
  if r < 0.5 then Gender.male else Gender.female

/-- The random draws consumed by one factory call: two for the position,
one for the velocity heading, one for the gender. -/
structure AgentDraws where
  p1 : ℝ
  p2 : ℝ
  vA : ℝ
  g : ℝ

/-- `createRabbit` (line 23); `id` models the `uuidv4()` result. -/
def createRabbit (worldSize : ℝ) (id : ℕ) (d : AgentDraws) : Agent :=
  { id := id
    position := randomPosition worldSize d.p1 d.p2
    velocity := randomVelocity 1.2 d.vA
    energy := 80
    age := 0
    lastReproduced := 0
    type := Species.rabbit
    gender := randomGender d.g
    isPregnant := false
    pregnancyTime := 0 }

/-- `createFox` (line 36). -/
def createFox (worldSize : ℝ) (id : ℕ) (d : AgentDraws) : Agent :=
  { id := id
    position := randomPosition worldSize d.p1 d.p2
    velocity := randomVelocity 1.8 d.vA
    energy := 100
    age := 0
    lastReproduced := 0
    type := Species.fox
    gender := randomGender d.g
    isPregnant := false
    pregnancyTime := 0 }

/-- `distanceSquared` (line 50): ground-plane squared distance. -/
def distanceSquared (a b : Vec3) : ℝ :=
  (a.x - b.x) * (a.x - b.x) + (a.z - b.z) * (a.z - b.z)

/-- `normalizeVector` (line 56). -/
def normalizeVector (v : Vec3) : Vec3 :=
  let magnitude := Real.sqrt (v.x * v.x + v.z * v.z)
  if magnitude = 0 then { x := 0, y := 0, z := 0 }
  else { x := v.x / magnitude, y := 0, z := v.z / magnitude }

/-- The linear scan shared by `findClosestRabbit` (line 335) and
`findClosestFox` (line 353): keep the first strictly smaller squared
distance; a `none` accumulator models the initial `Infinity`. -/
def findClosestAux (p : Vec3) : List Agent → Option (Agent × ℝ) → Option (Agent × ℝ)
  | [], best => best
  | a :: rest, best =>
    let d := distanceSquared p a.position
    match best with
    | none => findClosestAux p rest (some (a, d))
    | some (b, bd) =>
      if d < bd then findClosestAux p rest (some (a, d))
      else findClosestAux p rest (some (b, bd))

/-- `findClosestRabbit` (line 335). -/
def findClosestRabbit (fox : Agent) (rabbits : List Agent) : Option Agent :=
  (findClosestAux fox.position rabbits none).map Prod.fst

/-- `findClosestFox` (line 353); the source duplicates the same scan. -/
def findClosestFox (rabbit : Agent) (foxes : List Agent) : Option Agent :=
  (findClosestAux rabbit.position foxes none).map Prod.fst

/-- `keepWithinBounds` (line 371): outside the circular boundary the
position is recomputed at the same angle at 95% of the radius. -/
def keepWithinBounds (position : Vec3) (worldSize : ℝ) : Vec3 :=
  let distanceFromCenter := Real.sqrt (position.x * position.x + position.z * position.z)
  if distanceFromCenter > worldSize then
    let angle := atan2 position.z position.x
    { x := Real.cos angle * worldSize * 0.95
      y := position.y
      z := Real.sin angle * worldSize * 0.95 }
  else position

/-- The random draws consumed by one behaviour update: the turn-roll
(`Math.random() < 0.03` / `< 0.04`) and the turn angle drawn when the
roll succeeds. -/
structure MoveDraws where
  turnRoll : ℝ
  turnAngle : ℝ

/-- `updateRabbit` (line 156). -/
def updateRabbit (rabbit : Agent) (state : World) (deltaTime : ℝ) (d : MoveDraws) : Agent :=
  let pregnancyTime :=
    if rabbit.isPregnant then rabbit.pregnancyTime + deltaTime else rabbit.pregnancyTime
  let v0 := rabbit.velocity
  let turned :=
    if d.turnRoll < 0.03 then
      let changeAngle := (d.turnAngle - 0.5) * π / 2
      let speed := Real.sqrt (v0.x * v0.x + v0.z * v0.z)
      let currentAngle := atan2 v0.z v0.x
      let newAngle := currentAngle + changeAngle
      ({ x := Real.cos newAngle * speed, y := 0, z := Real.sin newAngle * speed } : Vec3)
    else v0
  let newVelocity :=
    match findClosestFox rabbit state.foxes with
    | some closestFox =>
      let distance := Real.sqrt (distanceSquared rabbit.position closestFox.position)
      if distance < 6 then
        let awayVector : Vec3 :=
          { x := rabbit.position.x - closestFox.position.x
            y := 0
            z := rabbit.position.z - closestFox.position.z }
        let normalized := normalizeVector awayVector
        ({ x := normalized.x * 3.0, y := 0, z := normalized.z * 3.0 } : Vec3)
      else turned
    | none => turned
  let newPosition : Vec3 :=
    { x := rabbit.position.x + newVelocity.x * deltaTime
      y := rabbit.position.y
      z := rabbit.position.z + newVelocity.z * deltaTime }
  let boundedPosition := keepWithinBounds newPosition state.worldSize
  let newEnergy := min 100 (rabbit.energy + 3 * deltaTime) - 0.8 * deltaTime
  let newEnergy := if rabbit.isPregnant then newEnergy - 0.5 * deltaTime else newEnergy
  { rabbit with
    position := boundedPosition
    velocity := newVelocity
    energy := newEnergy
    age := rabbit.age + deltaTime
    pregnancyTime := pregnancyTime }

/-- `updateFox` (line 233); the second component is `eatenRabbitId`.  On
a catch the energy is *overwritten* with `min 100 (fox.energy + 60)`
(line 279), discarding the baseline and pregnancy consumption. -/
def updateFox (fox : Agent) (state : World) (deltaTime : ℝ) (rabbits : List Agent)
    (d : MoveDraws) : Agent × Option ℕ :=
  let pregnancyTime :=
    if fox.isPregnant then fox.pregnancyTime + deltaTime else fox.pregnancyTime
  let baseEnergy := fox.energy - 2.5 * deltaTime
  let baseEnergy := if fox.isPregnant then baseEnergy - 0.8 * deltaTime else baseEnergy
  let wander : Vec3 :=
    if d.turnRoll < 0.04 then
      let changeAngle := (d.turnAngle - 0.5) * π / 2
      let currentAngle := atan2 fox.velocity.z fox.velocity.x
      let newAngle := currentAngle + changeAngle
      { x := Real.cos newAngle * 1.8, y := 0, z := Real.sin newAngle * 1.8 }
    else fox.velocity
  let step : Vec3 × ℝ × Option ℕ :=
    match findClosestRabbit fox rabbits with
    | some closestRabbit =>
      let distance := Real.sqrt (distanceSquared fox.position closestRabbit.position)
      if distance < 8 then
        let towardVector : Vec3 :=
          { x := closestRabbit.position.x - fox.position.x
            y := 0
            z := closestRabbit.position.z - fox.position.z }
        let normalized := normalizeVector towardVector
        let newVelocity : Vec3 := { x := normalized.x * 3.5, y := 0, z := normalized.z * 3.5 }
        if distance < 1.2 then
          (newVelocity, min 100 (fox.energy + 60), some closestRabbit.id)
        else (newVelocity, baseEnergy, none)
      else (wander, baseEnergy, none)
    | none => (wander, baseEnergy, none)
  let newVelocity := step.1
  let newEnergy := step.2.1
  let eatenRabbitId := step.2.2
  let newPosition : Vec3 :=
    { x := fox.position.x + newVelocity.x * deltaTime
      y := fox.position.y
      z := fox.position.z + newVelocity.z * deltaTime }
  let boundedPosition := keepWithinBounds newPosition state.worldSize
  ({ fox with
      position := boundedPosition
      velocity := newVelocity
      energy := newEnergy
      age := fox.age + deltaTime
      pregnancyTime := pregnancyTime },
   eatenRabbitId)

/-- The random draws consumed when one baby is created: the four factory
draws followed by the two jitter draws for the baby position. -/
structure BabyDraws where
  p1 : ℝ
  p2 : ℝ
  vA : ℝ
  g : ℝ
  jx : ℝ
  jz : ℝ

/-- Oracle for every random draw of one `checkGenderBasedReproduction`
call: `litter i` is the litter-size draw of the birthing mother at list
index `i`; `baby i j` / `babyId i j` are the draws and the uuid of her
`j`-th baby; `mate fi mi` is the mating roll for the female at list index
`fi` against the male at list index `mi`. -/
structure ReproOracle where
  litter : ℕ → ℝ
  baby : ℕ → ℕ → BabyDraws
  babyId : ℕ → ℕ → ℕ
  mate : ℕ → ℕ → ℝ

/-- The species-specific constants of the mating pass (line 423). -/
structure ReproParams where
  minEnergy : ℝ
  minAge : ℝ
  cooldown : ℝ
  chance : ℝ

/-- Reproduction parameters: rabbits `{60, 8, 12, 0.15}`, foxes
`{75, 15, 18, 0.12}` (lines 423-425). -/
def reproductionParams (species : Species) : ReproParams :=
  if species = Species.rabbit then ⟨60, 8, 12, 0.15⟩ else ⟨75, 15, 18, 0.12⟩

/-- Indexed map; the index addresses the per-agent oracle entries. -/
def mapWI {α β : Type} (f : ℕ → α → β) : ℕ → List α → List β
  | _, [] => []
  | i, a :: as => f i a :: mapWI f (i + 1) as

/-- The birth step for one agent (lines 397-419): a due pregnant mother
produces a litter of factory babies repositioned next to her with energy
60, and her pregnancy state, `lastReproduced` and energy are updated. -/
def birthStep (species : Species) (worldSize : ℝ) (o : ReproOracle) (i : ℕ) (a : Agent) :
    Agent × List Agent :=
  let pregnancyDuration : ℝ := if species = Species.rabbit then 8 else 15
  if a.isPregnant ∧ a.pregnancyTime ≥ pregnancyDuration then
    let litterSize : ℕ :=
      if species = Species.rabbit then (⌊o.litter i * 3⌋ + 2).toNat
      else (⌊o.litter i * 2⌋ + 1).toNat
    let babies := (List.range litterSize).map (fun j =>
      let d := o.baby i j
      let b :=
        if species = Species.rabbit then createRabbit worldSize (o.babyId i j) ⟨d.p1, d.p2, d.vA, d.g⟩
        else createFox worldSize (o.babyId i j) ⟨d.p1, d.p2, d.vA, d.g⟩
      { b with
        position := ({ x := a.position.x + (d.jx - 0.5) * 2
                       y := 0
                       z := a.position.z + (d.jz - 0.5) * 2 } : Vec3)
        energy := 60 })
    ({ a with isPregnant := false, pregnancyTime := 0, lastReproduced := a.age,
              energy := a.energy - 40 },
     babies)
  else (a, [])

/-- The list indices of the agents satisfying a predicate; models the
captured `males` / `females` filters (lines 427-428), keeping indices so
that in-place mutation of the shared array can be expressed. -/
def matchIdxs (l : List Agent) (pred : Agent → Bool) : List ℕ :=
  (List.range l.length).filter (fun i => ((l[i]?).map pred).getD false)

/-- One mating event, recording the two participants as they were read
when the mating succeeded. -/
structure MatingEvent where
  female : Agent
  male : Agent

/-- The inner male scan for one female (lines 437-454): first male that
passes the energy/age/cooldown gate, is within mating distance and wins
the roll. -/
def findMate (p : ReproParams) (o : ReproOracle) (agents : List Agent) (f : Agent) (fi : ℕ) :
    List ℕ → Option (ℕ × Agent)
  | [] => none
  | mi :: rest =>
    match agents[mi]? with
    | none => findMate p o agents f fi rest
    | some m =>
      if m.energy > p.minEnergy ∧ m.age > p.minAge ∧ m.age - m.lastReproduced > p.cooldown then
        if Real.sqrt (distanceSquared f.position m.position) < 2.0 ∧ o.mate fi mi < p.chance then
          some (mi, m)
        else findMate p o agents f fi rest
      else findMate p o agents f fi rest

/-- The outer female loop of the mating pass (lines 430-456), threading
the shared agent array: a successful mating marks the female pregnant
with the mating energy cost, and charges the male his cost and cooldown. -/
def mateLoop (p : ReproParams) (o : ReproOracle) (maleIdxs : List ℕ) :
    List ℕ → List Agent → List MatingEvent → List Agent × List MatingEvent
  | [], agents, evs => (agents, evs)
  | fi :: rest, agents, evs =>
    match agents[fi]? with
    | none => mateLoop p o maleIdxs rest agents evs
    | some f =>
      if f.energy > p.minEnergy ∧ f.age > p.minAge ∧ f.age - f.lastReproduced > p.cooldown then
        match findMate p o agents f fi maleIdxs with
        | some (mi, m) =>
          let agents' :=
            (agents.set fi { f with isPregnant := true, pregnancyTime := 0,
                                    energy := f.energy - 15 }).set mi
              { m with energy := m.energy - 10, lastReproduced := m.age }
          mateLoop p o maleIdxs rest agents' (evs ++ [⟨f, m⟩])
        | none => mateLoop p o maleIdxs rest agents evs
      else mateLoop p o maleIdxs rest agents evs

/-- `checkGenderBasedReproduction` (line 388).  The source mutates the
`agents` array in place and returns only the newborns; here the function
returns `(mutated agents, newborns, mating events)`. -/
def checkGenderBasedReproduction (agents : List Agent) (worldSize : ℝ) (species : Species)
    (o : ReproOracle) : List Agent × List Agent × List MatingEvent :=
  let birthResults := mapWI (birthStep species worldSize o) 0 agents
  let afterBirths := birthResults.map Prod.fst
  let newAgents := (birthResults.map Prod.snd).flatten
  let p := reproductionParams species
  let femaleIdxs := matchIdxs afterBirths (fun a => a.gender == Gender.female && !a.isPregnant)
  let maleIdxs := matchIdxs afterBirths (fun a => a.gender == Gender.male && !a.isPregnant)
  let mated := mateLoop p o maleIdxs femaleIdxs afterBirths []
  (mated.1, newAgents, mated.2)

/-- The per-tick record of what the predator pass reported: one optional
consumed prey id per predator, in predator order, plus the mating events
of the two reproduction passes. -/
structure TickLog where
  foxCatches : List (Option ℕ)
  rabbitEvents : List MatingEvent
  foxEvents : List MatingEvent

/-- Oracle for every random draw of one `updateAgents` call. -/
structure TickRand where
  foxMove : ℕ → MoveDraws
  rabbitMove : ℕ → MoveDraws
  rabbitRepro : ReproOracle
  foxRepro : ReproOracle

/-- The predator pass of `updateAgents` (lines 114-121): every fox is
updated against the pre-tick rabbit list. -/
def foxResults (w : World) (newDelta : ℝ) (r : TickRand) : List (Agent × Option ℕ) :=
  mapWI (fun i fox => updateFox fox w newDelta w.rabbits (r.foxMove i)) 0 w.foxes

/-- The `eatenRabbitIds` set (lines 111-119). -/
def eatenRabbitIds (w : World) (newDelta : ℝ) (r : TickRand) : List ℕ :=
  (foxResults w newDelta r).filterMap Prod.snd

/-- The `updatedFoxes` list (line 122): dead foxes removed. -/
def updatedFoxes (w : World) (newDelta : ℝ) (r : TickRand) : List Agent :=
  ((foxResults w newDelta r).map Prod.fst).filter (fun fox => decide (fox.energy > 0))

/-- The `updatedRabbits` list (lines 125-128): eaten rabbits removed
first, then the survivors updated, then dead rabbits removed. -/
def updatedRabbits (w : World) (newDelta : ℝ) (r : TickRand) : List Agent :=
  (mapWI (fun i rabbit => updateRabbit rabbit w newDelta (r.rabbitMove i)) 0
    (w.rabbits.filter (fun rabbit => !(eatenRabbitIds w newDelta r).contains rabbit.id))).filter
    (fun rabbit => decide (rabbit.energy > 0))

/-- `updateAgents` (line 103): scale the delta by the speed factor,
advance the clock, update foxes against the pre-tick rabbit list
(collecting eaten ids), update the surviving rabbits, filter the dead,
run reproduction per species and publish the new snapshot. -/
def updateAgents (w : World) (deltaTime : ℝ) (r : TickRand) : World × TickLog :=
  let newDelta := deltaTime * w.speedFactor
  let rabbitRepro :=
    checkGenderBasedReproduction (updatedRabbits w newDelta r) w.worldSize Species.rabbit
      r.rabbitRepro
  let foxRepro :=
    checkGenderBasedReproduction (updatedFoxes w newDelta r) w.worldSize Species.fox r.foxRepro
  let allAnimals := rabbitRepro.1 ++ rabbitRepro.2.1 ++ foxRepro.1 ++ foxRepro.2.1
  let selectedAnimal :=
    match w.selectedAnimal with
    | some sel => allAnimals.find? (fun a => a.id == sel.id)
    | none => none
  ({ w with
      rabbits := rabbitRepro.1 ++ rabbitRepro.2.1
      foxes := foxRepro.1 ++ foxRepro.2.1
      simulationTime := w.simulationTime + newDelta
      selectedAnimal := selectedAnimal },
   ⟨(foxResults w newDelta r).map Prod.snd, rabbitRepro.2.2, foxRepro.2.2⟩)

/-- The per-frame driver (`Agents.tsx` lines 17-21): `updateAgents` is
invoked only when the simulation is not paused. -/
def frameTick (w : World) (delta : ℝ) (r : TickRand) : World × TickLog :=
  if w.isPaused then (w, ⟨[], [], []⟩) else updateAgents w delta r

/-- `setSpeedFactor` (line 87): stores its argument as is. -/
def setSpeedFactor (w : World) (speed : ℝ) : World :=
  { w with speedFactor := speed }

/-- The decrement handler of the speed control (`Controls.tsx` line 44). -/
def controlsSpeedDown (w : World) : World :=
  setSpeedFactor w (max 0.1 (w.speedFactor - 0.1))

/-- The increment handler of the speed control (`Controls.tsx` line 51). -/
def controlsSpeedUp (w : World) : World :=
  setSpeedFactor w (min 3.0 (w.speedFactor + 0.1))

/-- Oracle for the factory draws of `reset` (one entry per seeded agent). -/
structure SpawnOracle where
  rabbitDraws : ℕ → AgentDraws
  rabbitId : ℕ → ℕ
  foxDraws : ℕ → AgentDraws
  foxId : ℕ → ℕ

/-- `reset` (line 147): reseeds 8 rabbits and 4 foxes at world size 20 and
zeroes the clock; the zustand `set` merges, so every other field (pause
flag, speed factor, toggles, world size) is left unchanged. -/
def reset (w : World) (o : SpawnOracle) : World :=
  { w with
    rabbits := (List.range 8).map (fun i => createRabbit 20 (o.rabbitId i) (o.rabbitDraws i))
    foxes := (List.range 4).map (fun i => createFox 20 (o.foxId i) (o.foxDraws i))
    simulationTime := 0
    selectedAnimal := none }

/-- Agent builder for concrete test scenarios: at the arena centre with
zero velocity. -/
def mkAgent (id : ℕ) (sp : Species) (g : Gender) (energy age : ℝ) (preg : Bool) (pt : ℝ) :
    Agent :=
  { id := id
    position := ⟨0, 0, 0⟩
    velocity := ⟨0, 0, 0⟩
    energy := energy
    age := age
    lastReproduced := 0
    type := sp
    gender := g
    isPregnant := preg
    pregnancyTime := pt }

/-- Empty world with the default store settings (world size 20, speed 1). -/
def baseWorld : World :=
  { rabbits := []
    foxes := []
    isPaused := false
    speedFactor := 1
    showStats := true
    showGrid := true
    worldSize := 20
    simulationTime := 0
    selectedAnimal := none }

/-- Move draws whose turn roll (0.5) never triggers a random turn. -/
def m05 : MoveDraws := ⟨0.5, 0.5⟩

/-- Baby draws with every `Math.random()` result 0.5. -/
def bd05 : BabyDraws := ⟨0.5, 0.5, 0.5, 0.5, 0.5, 0.5⟩

/-- Reproduction oracle: every draw 0.5 (mating rolls fail: 0.5 is above
both species chances), newborn uuids distinct from small test ids. -/
def repro05 : ReproOracle :=
  ⟨fun _ => 0.5, fun _ _ => bd05, fun i j => 1000 + 10 * i + j, fun _ _ => 0.5⟩

/-- Tick oracle with every draw 0.5. -/
def o05 : TickRand := ⟨fun _ => m05, fun _ => m05, repro05, repro05⟩

/-- Paused copy of the base world. -/
def wPaused : World := { baseWorld with isPaused := true }

/-- World with a pregnant female fox (energy 20, age 30, pregnancy timer
at 14 of the 15-second fox gestation) and no rabbits. -/
def wBirth : World :=
  { baseWorld with foxes := [mkAgent 5 Species.fox Gender.female 20 30 true 14] }

/-- World with one healthy non-pregnant male rabbit and no foxes. -/
def wOneRabbit : World :=
  { baseWorld with rabbits := [mkAgent 1 Species.rabbit Gender.male 50 0 false 0] }

/-- World with one rabbit and one fox stacked at the centre, inside the
catch radius. -/
def wHunt : World :=
  { baseWorld with
    rabbits := [mkAgent 1 Species.rabbit Gender.male 50 0 false 0]
    foxes := [mkAgent 2 Species.fox Gender.male 30 0 false 0] }

/-- World with one rabbit and two foxes stacked at the centre: both foxes
are within catch radius of the same single prey. -/
def wDoubleCatch : World :=
  { baseWorld with
    rabbits := [mkAgent 1 Species.rabbit Gender.male 50 0 false 0]
    foxes :=
      [mkAgent 2 Species.fox Gender.male 30 0 false 0,
       mkAgent 3 Species.fox Gender.male 30 0 false 0] }

/-- An eligible female rabbit: energy 70 > 60, age 20 > 8, cooldown
20 - 0 > 12, not pregnant. -/
def fEligible : Agent := mkAgent 10 Species.rabbit Gender.female 70 20 false 0

/-- An eligible male rabbit with the same stats. -/
def mEligible : Agent := mkAgent 11 Species.rabbit Gender.male 70 20 false 0

/-- Reproduction oracle whose mating rolls always succeed (roll 0). -/
def reproMate0 : ReproOracle :=
  ⟨fun _ => 0.5, fun _ _ => bd05, fun i j => 1000 + 10 * i + j, fun _ _ => 0⟩

/-- Position used by the boundary-containment witness. -/
def c6pos : Vec3 := ⟨3, 7, 4⟩

/-- A fox of `wHunt` / `wDoubleCatch` after a catch tick: energy
`min 100 (30 + 60) = 90`, stationary at the centre, age 1. -/
def caughtFox (idv : ℕ) : Agent :=
  { id := idv
    position := ⟨0, 0, 0⟩
    velocity := ⟨0, 0, 0⟩
    energy := 90
    age := 1
    lastReproduced := 0
    type := Species.fox
    gender := Gender.male
    isPregnant := false
    pregnancyTime := 0 }

/-- What must be true of both participants, as read at the moment a
mating is recorded: opposite genders, neither pregnant, both above the
species minimum energy and age, both past their cooldown, and within
mating distance. -/
def eventWellFormed (p : ReproParams) (e : MatingEvent) : Prop :=
  e.female.gender = Gender.female ∧ e.female.isPregnant = false ∧
  e.male.gender = Gender.male ∧ e.male.isPregnant = false ∧
  e.female.energy > p.minEnergy ∧ e.female.age > p.minAge ∧
  e.female.age - e.female.lastReproduced > p.cooldown ∧
  e.male.energy > p.minEnergy ∧ e.male.age > p.minAge ∧
  e.male.age - e.male.lastReproduced > p.cooldown ∧
  Real.sqrt (distanceSquared e.female.position e.male.position) < 2.0

/-- C2 as stated by the spec: `setSpeedFactor` itself clamps to
[0.1, 3.0]. -/
def c2Claim : Prop :=
  ∀ (w : World) (x : ℝ), (setSpeedFactor w x).speedFactor = max 0.1 (min 3.0 x)

/-- C3 as stated by the spec: on a catch tick the new predator energy is
the previous energy minus baseline consumption, minus pregnancy upkeep
if pregnant, plus the meal gain, capped at 100. -/
def c3Claim : Prop :=
  ∀ (fox : Agent) (state : World) (dt : ℝ) (rabbits : List Agent) (d : MoveDraws) (rb : Agent),
    findClosestRabbit fox rabbits = some rb →
    Real.sqrt (distanceSquared fox.position rb.position) < 1.2 →
    (updateFox fox state dt rabbits d).1.energy =
      min 100 (fox.energy - 2.5 * dt - (if fox.isPregnant then 0.8 * dt else 0) + 60)

/-- C5 as stated by the spec: a factory position lies within planar
distance 0.8 × radius of the arena centre. -/
def c5Claim : Prop :=
  ∀ (worldSize r1 r2 : ℝ), 0 ≤ worldSize → 0 ≤ r1 → r1 < 1 → 0 ≤ r2 → r2 < 1 →
    Real.sqrt ((randomPosition worldSize r1 r2).x ^ 2 + (randomPosition worldSize r1 r2).z ^ 2) ≤
      0.8 * worldSize

/-- C1 as stated by the spec: every agent of a published snapshot has
energy > 0, for any pre-tick world. -/
def snapshotEnergiesPositive (w : World) : Prop :=
  ∀ a ∈ w.rabbits ++ w.foxes, 0 < a.energy

/-- C1 as stated by the spec, over any world. -/
def c1Claim : Prop :=
  ∀ (w : World) (dt : ℝ) (r : TickRand), snapshotEnergiesPositive (updateAgents w dt r).1

/-- The pregnant fox of `wBirth` after its behaviour update with draws
0.5: energy 20 - 2.5 - 0.8 = 16.7 > 0, so it survives the death filter;
its pregnancy timer reaches the fox gestation of 15. -/
def motherMid : Agent :=
  { id := 5
    position := ⟨0, 0, 0⟩
    velocity := ⟨0, 0, 0⟩
    energy := 16.7
    age := 31
    lastReproduced := 0
    type := Species.fox
    gender := Gender.female
    isPregnant := true
    pregnancyTime := 15 }

/-- The same fox as published after giving birth: the birth cost of 40 is
charged after the death filter, leaving energy 16.7 - 40 = -23.3 in the
published snapshot. -/
def motherPub : Agent :=
  { id := 5
    position := ⟨0, 0, 0⟩
    velocity := ⟨0, 0, 0⟩
    energy := 16.7 - 40
    age := 31
    lastReproduced := 31
    type := Species.fox
    gender := Gender.female
    isPregnant := false
    pregnancyTime := 0 }

/-- The `j`-th newborn fox of the `wBirth` litter with draws 0.5. -/
def babyF (j : ℕ) : Agent :=
  { id := 1000 + j
    position := ⟨0, 0, 0⟩
    velocity := ⟨Real.cos (0.5 * π * 2) * 1.8, 0, Real.sin (0.5 * π * 2) * 1.8⟩
    energy := 60
    age := 0
    lastReproduced := 0
    type := Species.fox
    gender := Gender.female
    isPregnant := false
    pregnancyTime := 0 }

end

namespace Lemmas

open Ecosim

/-- The prey behaviour update never changes the pregnancy flag. -/
theorem updateRabbit_isPregnant (rabbit : Agent) (state : World) (dt : ℝ) (d : MoveDraws) :
    (updateRabbit rabbit state dt d).isPregnant = rabbit.isPregnant := by
  simp only [updateRabbit]

/-- The prey behaviour update never changes the id. -/
theorem updateRabbit_id (rabbit : Agent) (state : World) (dt : ℝ) (d : MoveDraws) :
    (updateRabbit rabbit state dt d).id = rabbit.id := by
  simp only [updateRabbit]

/-- The predator behaviour update never changes the pregnancy flag. -/
theorem updateFox_isPregnant (fox : Agent) (state : World) (dt : ℝ) (rabbits : List Agent)
    (d : MoveDraws) : (updateFox fox state dt rabbits d).1.isPregnant = fox.isPregnant := by
  simp only [updateFox]

/-- The predator behaviour update never changes the id. -/
theorem updateFox_id (fox : Agent) (state : World) (dt : ℝ) (rabbits : List Agent)
    (d : MoveDraws) : (updateFox fox state dt rabbits d).1.id = fox.id := by
  simp only [updateFox]

/-- Every element of an indexed map is the image of some list element. -/
theorem mem_mapWI {α β : Type} (f : ℕ → α → β) :
    ∀ (k : ℕ) (l : List α) (b : β), b ∈ mapWI f k l → ∃ i a, a ∈ l ∧ b = f i a := by
  intro k l
  induction l generalizing k with
  | nil => intro b hb; simp [mapWI] at hb
  | cons a as ih =>
    intro b hb
    rw [mapWI] at hb
    rcases List.mem_cons.mp hb with h | h
    · exact ⟨k, a, List.mem_cons_self a as, h⟩
    · obtain ⟨i, a', ha', hb'⟩ := ih (k + 1) b h
      exact ⟨i, a', List.mem_cons_of_mem a ha', hb'⟩

/-- What a successful inner male scan guarantees: the male is at his
index in the shared array, the index was in the male pool, and he passed
the energy, age, cooldown, distance and roll checks. -/
theorem findMate_spec (p : ReproParams) (o : ReproOracle) (agents : List Agent) (f : Agent)
    (fi : ℕ) :
    ∀ (ms : List ℕ) (mi : ℕ) (m : Agent), findMate p o agents f fi ms = some (mi, m) →
      agents[mi]? = some m ∧ mi ∈ ms ∧ m.energy > p.minEnergy ∧ m.age > p.minAge ∧
      m.age - m.lastReproduced > p.cooldown ∧
      Real.sqrt (distanceSquared f.position m.position) < 2.0 ∧ o.mate fi mi < p.chance := by
  intro ms
  induction ms with
  | nil => intro mi m h; simp [findMate] at h
  | cons mj rest ih =>
    intro mi m h
    rw [findMate] at h
    cases hg : agents[mj]? with
    | none =>
      simp only [hg] at h
      obtain ⟨h1, h2, h3⟩ := ih mi m h
      exact ⟨h1, List.mem_cons_of_mem mj h2, h3⟩
    | some mc =>
      simp only [hg] at h
      by_cases h1 : mc.energy > p.minEnergy ∧ mc.age > p.minAge ∧
          mc.age - mc.lastReproduced > p.cooldown
      · rw [if_pos h1] at h
        by_cases h2 : Real.sqrt (distanceSquared f.position mc.position) < 2.0 ∧
            o.mate fi mj < p.chance
        · rw [if_pos h2] at h
          simp only [Option.some.injEq, Prod.mk.injEq] at h
          obtain ⟨rfl, rfl⟩ := h
          exact ⟨hg, List.mem_cons_self mj rest, h1.1, h1.2.1, h1.2.2, h2.1, h2.2⟩
        · rw [if_neg h2] at h
          obtain ⟨g1, g2, g3⟩ := ih mi m h
          exact ⟨g1, List.mem_cons_of_mem mj g2, g3⟩
      · rw [if_neg h1] at h
        obtain ⟨g1, g2, g3⟩ := ih mi m h
        exact ⟨g1, List.mem_cons_of_mem mj g2, g3⟩

/-- A property of agents preserved by the two mating mutations is
preserved by the whole mating loop. -/
theorem mateLoop_forall {P : Agent → Prop} (p : ReproParams) (o : ReproOracle)
    (maleIdxs : List ℕ)
    (hF : ∀ f : Agent, P f → p.minEnergy < f.energy →
      P { f with isPregnant := true, pregnancyTime := 0, energy := f.energy - 15 })
    (hM : ∀ m : Agent, P m → p.minEnergy < m.energy →
      P { m with energy := m.energy - 10, lastReproduced := m.age }) :
    ∀ (fs : List ℕ) (agents : List Agent) (evs : List MatingEvent),
      (∀ a ∈ agents, P a) → ∀ b ∈ (mateLoop p o maleIdxs fs agents evs).1, P b := by
  intro fs
  induction fs with
  | nil => intro agents evs hall b hb; rw [mateLoop] at hb; exact hall b hb
  | cons fi rest ih =>
    intro agents evs hall b hb
    rw [mateLoop] at hb
    cases hg : agents[fi]? with
    | none => simp only [hg] at hb; exact ih _ _ hall b hb
    | some f =>
      simp only [hg] at hb
      by_cases h1 : f.energy > p.minEnergy ∧ f.age > p.minAge ∧
          f.age - f.lastReproduced > p.cooldown
      · rw [if_pos h1] at hb
        cases hfm : findMate p o agents f fi maleIdxs with
        | none => simp only [hfm] at hb; exact ih _ _ hall b hb
        | some pair =>
          obtain ⟨mi, m⟩ := pair
          simp only [hfm] at hb
          have spec := findMate_spec p o agents f fi maleIdxs mi m hfm
          refine ih _ _ ?_ b hb
          intro c hc
          rcases List.mem_or_eq_of_mem_set hc with hc1 | rfl
          · rcases List.mem_or_eq_of_mem_set hc1 with hc2 | rfl
            · exact hall c hc2
            · exact hF f (hall f (List.getElem?_mem hg)) h1.1
          · exact hM m (hall m (List.getElem?_mem spec.1)) spec.2.2.1
      · rw [if_neg h1] at hb; exact ih _ _ hall b hb

/-- A non-pregnant agent passes through the birth step unchanged. -/
theorem birthStep_not_pregnant (sp : Species) (ws : ℝ) (o : ReproOracle) (i : ℕ) (a : Agent)
    (h : a.isPregnant = false) : birthStep sp ws o i a = (a, []) := by
  simp [birthStep, h]

/-- With no pregnant agent, the whole birth phase is the identity. -/
theorem mapWI_birth_no_preg (sp : Species) (ws : ℝ) (o : ReproOracle) :
    ∀ (k : ℕ) (l : List Agent), (∀ a ∈ l, a.isPregnant = false) →
      mapWI (birthStep sp ws o) k l = l.map (fun a => (a, [])) := by
  intro k l
  induction l generalizing k with
  | nil => intro _; simp [mapWI]
  | cons a as ih =>
    intro h
    rw [mapWI, birthStep_not_pregnant sp ws o k a (h a (List.mem_cons_self a as)),
      List.map_cons]
    rw [ih (k + 1) (fun b hb => h b (List.mem_cons_of_mem a hb))]

/-- Both species' minimum mating energies dominate the mating costs. -/
theorem reproductionParams_minEnergy (sp : Species) :
    (15 : ℝ) ≤ (reproductionParams sp).minEnergy := by
  cases sp <;> simp [reproductionParams] <;> norm_num

/-- With no pregnant survivor, the reproduction pass produces no newborn
and keeps every energy positive. -/
theorem checkGBR_no_births (agents : List Agent) (ws : ℝ) (sp : Species) (o : ReproOracle)
    (hpreg : ∀ a ∈ agents, a.isPregnant = false)
    (hpos : ∀ a ∈ agents, 0 < a.energy) :
    (∀ b ∈ (checkGenderBasedReproduction agents ws sp o).1, 0 < b.energy) ∧
    (checkGenderBasedReproduction agents ws sp o).2.1 = [] := by
  have hmin := reproductionParams_minEnergy sp
  have hb := mapWI_birth_no_preg sp ws o 0 agents hpreg
  have hfst : (mapWI (birthStep sp ws o) 0 agents).map Prod.fst = agents := by
    rw [hb, List.map_map]
    simp [Function.comp_def]
  constructor
  · intro b hbmem
    simp only [checkGenderBasedReproduction, hfst] at hbmem
    refine mateLoop_forall (reproductionParams sp) o _ ?_ ?_ _ agents [] hpos b hbmem
    · intro f hPf hEf
      show 0 < f.energy - 15
      linarith
    · intro m hPm hEm
      show 0 < m.energy - 10
      linarith
  · show ((mapWI (birthStep sp ws o) 0 agents).map Prod.snd).flatten = []
    rw [hb, List.map_map]
    simp [Function.comp_def, List.flatten_eq_nil_iff]

/-- Constructor disequality, packaged for rewriting. -/
theorem species_fox_ne_rabbit : (Species.fox = Species.rabbit) = False := by simp

/-- Constructor disequality, packaged for rewriting. -/
theorem gender_female_ne_male : (Gender.female = Gender.male) = False := by simp

/-- Constructor disequality, packaged for rewriting. -/
theorem gender_male_ne_female : (Gender.male = Gender.female) = False := by simp

/-- `Math.atan2` lands in `(-π, π]`. -/
theorem atan2_mem_Ioc (y x : ℝ) : atan2 y x ∈ Set.Ioc (-Real.pi) Real.pi := by
  rw [atan2]
  exact Complex.arg_mem_Ioc _

/-- The angle of a positively scaled unit direction is the angle itself. -/
theorem atan2_scaled (θ r : ℝ) (hr : 0 < r) (hmem : θ ∈ Set.Ioc (-Real.pi) Real.pi) :
    atan2 (Real.sin θ * r) (Real.cos θ * r) = θ := by
  rw [atan2]
  have hc : (⟨Real.cos θ * r, Real.sin θ * r⟩ : ℂ) =
      (r : ℂ) * (Complex.cos θ + Complex.sin θ * Complex.I) := by
    apply Complex.ext <;>
      simp [Complex.cos_ofReal_re, Complex.sin_ofReal_re, Complex.cos_ofReal_im,
        Complex.sin_ofReal_im] <;> ring
  rw [hc, Complex.arg_mul_cos_add_sin_mul_I hr hmem]

/-- The indexed map preserves length. -/
theorem length_mapWI {α β : Type} (f : ℕ → α → β) :
    ∀ (k : ℕ) (l : List α), (mapWI f k l).length = l.length := by
  intro k l
  induction l generalizing k with
  | nil => rfl
  | cons a as ih => rw [mapWI, List.length_cons, List.length_cons, ih]

/-- The nearest-neighbour scan returns an element of the list or the
incoming accumulator. -/
theorem findClosestAux_mem (p : Vec3) :
    ∀ (l : List Agent) (best : Option (Agent × ℝ)) (r : Agent) (dv : ℝ),
      findClosestAux p l best = some (r, dv) → r ∈ l ∨ ∃ d', best = some (r, d') := by
  intro l
  induction l with
  | nil =>
    intro best r dv h
    simp only [findClosestAux] at h
    exact Or.inr ⟨dv, h⟩
  | cons a rest ih =>
    intro best r dv h
    simp only [findClosestAux] at h
    cases best with
    | none =>
      simp only at h
      rcases ih _ r dv h with hm | ⟨d', heq⟩
      · exact Or.inl (List.mem_cons_of_mem a hm)
      · simp only [Option.some.injEq, Prod.mk.injEq] at heq
        exact Or.inl (heq.1 ▸ List.mem_cons_self a rest)
    | some pair =>
      obtain ⟨b, bd⟩ := pair
      simp only at h
      by_cases hlt : distanceSquared p a.position < bd
      · rw [if_pos hlt] at h
        rcases ih _ r dv h with hm | ⟨d', heq⟩
        · exact Or.inl (List.mem_cons_of_mem a hm)
        · simp only [Option.some.injEq, Prod.mk.injEq] at heq
          exact Or.inl (heq.1 ▸ List.mem_cons_self a rest)
      · rw [if_neg hlt] at h
        rcases ih _ r dv h with hm | ⟨d', heq⟩
        · exact Or.inl (List.mem_cons_of_mem a hm)
        · simp only [Option.some.injEq, Prod.mk.injEq] at heq
          exact Or.inr ⟨bd, by rw [heq.1]⟩

/-- A found closest rabbit is one of the scanned rabbits. -/
theorem findClosestRabbit_mem (fox : Agent) (rabbits : List Agent) (rb : Agent)
    (h : findClosestRabbit fox rabbits = some rb) : rb ∈ rabbits := by
  rw [findClosestRabbit] at h
  obtain ⟨⟨r, dv⟩, haux, heq⟩ := Option.map_eq_some'.mp h
  rcases findClosestAux_mem fox.position rabbits none r dv haux with hm | ⟨d', habs⟩
  · exact heq ▸ hm
  · exact absurd habs (by simp)

/-- A consumed prey id reported by a predator update is the id of one of
the scanned prey. -/
theorem updateFox_eaten (fox : Agent) (state : World) (dt : ℝ) (rabbits : List Agent)
    (d : MoveDraws) (c : ℕ) (h : (updateFox fox state dt rabbits d).2 = some c) :
    ∃ rb ∈ rabbits, rb.id = c := by
  simp only [updateFox] at h
  cases hg : findClosestRabbit fox rabbits with
  | none =>
    simp only [hg] at h
    exact absurd h (by simp)
  | some rb =>
    simp only [hg] at h
    by_cases h8 : Real.sqrt (distanceSquared fox.position rb.position) < 8
    · rw [if_pos h8] at h
      by_cases h12 : Real.sqrt (distanceSquared fox.position rb.position) < 1.2
      · rw [if_pos h12] at h
        simp only [Option.some.injEq] at h
        exact ⟨rb, findClosestRabbit_mem fox rabbits rb hg, h⟩
      · rw [if_neg h12] at h
        simp at h
    · rw [if_neg h8] at h
      simp at h

/-- The birth step never changes the mother's id. -/
theorem birthStep_fst_id (sp : Species) (ws : ℝ) (o : ReproOracle) (i : ℕ) (a : Agent) :
    ((birthStep sp ws o i a).1).id = a.id := by
  simp only [birthStep]
  rw [apply_ite (fun p : Agent × List Agent => p.1.id)]
  simp

/-- Every newborn id comes from the uuid oracle. -/
theorem birthStep_snd_ids (sp : Species) (ws : ℝ) (o : ReproOracle) (i : ℕ) (a : Agent) :
    ∀ b ∈ (birthStep sp ws o i a).2, ∃ j, b.id = o.babyId i j := by
  intro b hb
  simp only [birthStep] at hb
  rw [apply_ite (Prod.snd (α := Agent) (β := List Agent))] at hb
  by_cases hc : a.isPregnant = true ∧ a.pregnancyTime ≥ (if sp = Species.rabbit then (8:ℝ) else 15)
  · rw [if_pos hc] at hb
    simp only [List.mem_map] at hb
    obtain ⟨j, hj, rfl⟩ := hb
    refine ⟨j, ?_⟩
    by_cases hsp : sp = Species.rabbit <;> simp [hsp, createRabbit, createFox]
  · rw [if_neg hc] at hb
    exact absurd hb (List.not_mem_nil b)

/-- An index produced by `matchIdxs` points at an agent satisfying the
predicate. -/
theorem matchIdxs_spec (l : List Agent) (pred : Agent → Bool) :
    ∀ i ∈ matchIdxs l pred, ∃ a, l[i]? = some a ∧ pred a = true := by
  intro i hi
  rw [matchIdxs, List.mem_filter] at hi
  obtain ⟨hrange, hcond⟩ := hi
  cases hg : l[i]? with
  | none => rw [hg] at hcond; simp at hcond
  | some a =>
    rw [hg] at hcond
    simp only [Option.map_some', Option.getD_some] at hcond
    exact ⟨a, rfl, hcond⟩

/-- The index pool of a predicate has no duplicates. -/
theorem matchIdxs_nodup (l : List Agent) (pred : Agent → Bool) : (matchIdxs l pred).Nodup :=
  (List.nodup_range _).filter _

/-- Every mating event recorded by the mating loop is well-formed,
provided the female pool indices point at non-pregnant females and the
male pool indices at non-pregnant males. -/
theorem mateLoop_events (p : ReproParams) (o : ReproOracle) (maleIdxs : List ℕ) :
    ∀ (fs : List ℕ) (agents : List Agent) (evs : List MatingEvent),
      fs.Nodup →
      (∀ i ∈ fs, ∃ a, agents[i]? = some a ∧ a.gender = Gender.female ∧ a.isPregnant = false) →
      (∀ i ∈ maleIdxs, ∃ a, agents[i]? = some a ∧ a.gender = Gender.male ∧
        a.isPregnant = false) →
      (∀ e ∈ evs, eventWellFormed p e) →
      ∀ e ∈ (mateLoop p o maleIdxs fs agents evs).2, eventWellFormed p e := by
  intro fs
  induction fs with
  | nil =>
    intro agents evs _ _ _ hevs e he
    rw [mateLoop] at he
    exact hevs e he
  | cons fi rest ih =>
    intro agents evs hnodup hfem hmale hevs e he
    obtain ⟨f, hgf, hfg, hfp⟩ := hfem fi (List.mem_cons_self fi rest)
    rw [mateLoop] at he
    simp only [hgf] at he
    have hrest : ∀ i ∈ rest, ∃ a, agents[i]? = some a ∧ a.gender = Gender.female ∧
        a.isPregnant = false := fun i hi => hfem i (List.mem_cons_of_mem fi hi)
    by_cases h1 : f.energy > p.minEnergy ∧ f.age > p.minAge ∧
        f.age - f.lastReproduced > p.cooldown
    · rw [if_pos h1] at he
      cases hfm : findMate p o agents f fi maleIdxs with
      | none =>
        simp only [hfm] at he
        exact ih _ _ (List.Nodup.of_cons hnodup) hrest hmale hevs e he
      | some pair =>
        obtain ⟨mi, m⟩ := pair
        simp only [hfm] at he
        have spec := findMate_spec p o agents f fi maleIdxs mi m hfm
        obtain ⟨m', hgm', hmg, hmp⟩ := hmale mi spec.2.1
        rw [spec.1] at hgm'
        injection hgm' with hmm
        subst hmm
        have hmi_lt : mi < agents.length := by
          rcases List.getElem?_eq_some.mp spec.1 with ⟨hlt, _⟩
          exact hlt
        have hfi_lt : fi < agents.length := by
          rcases List.getElem?_eq_some.mp hgf with ⟨hlt, _⟩
          exact hlt
        have hfi_ne_mi : fi ≠ mi := by
          intro hEq
          rw [hEq, spec.1] at hgf
          injection hgf with hfm'
          rw [hfm'] at hmg
          rw [hfg] at hmg
          exact absurd hmg (by simp)
        refine ih _ _ (List.Nodup.of_cons hnodup) ?_ ?_ ?_ e he
        · intro i hi
          obtain ⟨a, hga, hag, hap⟩ := hrest i hi
          have hi_ne_fi : i ≠ fi := by
            intro hEq
            exact absurd (hEq ▸ hi) (List.nodup_cons.mp hnodup).1
          have hi_ne_mi : i ≠ mi := by
            intro hEq
            rw [hEq, spec.1] at hga
            injection hga with ha'
            rw [ha'] at hmg
            rw [hag] at hmg
            exact absurd hmg (by simp)
          refine ⟨a, ?_, hag, hap⟩
          rw [List.getElem?_set_ne (Ne.symm hi_ne_mi), List.getElem?_set_ne (Ne.symm hi_ne_fi)]
          exact hga
        · intro i hi
          obtain ⟨a, hga, hag, hap⟩ := hmale i hi
          by_cases hEq : i = mi
          · subst hEq
            refine ⟨{ m with energy := m.energy - 10, lastReproduced := m.age }, ?_, hmg, hmp⟩
            exact List.getElem?_set_self (by simpa using hmi_lt)
          · have hi_ne_fi : i ≠ fi := by
              intro hEq'
              rw [hEq', hgf] at hga
              injection hga with ha'
              rw [ha'] at hfg
              rw [hag] at hfg
              exact absurd hfg (by simp)
            refine ⟨a, ?_, hag, hap⟩
            rw [List.getElem?_set_ne (Ne.symm hEq), List.getElem?_set_ne (Ne.symm hi_ne_fi)]
            exact hga
        · intro ev hev
          rcases List.mem_append.mp hev with hev1 | hev1
          · exact hevs ev hev1
          · rcases List.mem_cons.mp hev1 with rfl | hev2
            · exact ⟨hfg, hfp, hmg, hmp, h1.1, h1.2.1, h1.2.2, spec.2.2.1, spec.2.2.2.1,
                spec.2.2.2.2.1, spec.2.2.2.2.2.1⟩
            · exact absurd hev2 (List.not_mem_nil ev)
    · rw [if_neg h1] at he
      exact ih _ _ (List.Nodup.of_cons hnodup) hrest hmale hevs e he

/-- Every rabbit surviving the behaviour pass has positive energy, and
its pregnancy flag is the one it entered the tick with. -/
theorem updatedRabbits_props (w : World) (nd : ℝ) (r : TickRand)
    (hpreg : ∀ b ∈ w.rabbits, b.isPregnant = false) :
    ∀ a ∈ updatedRabbits w nd r, 0 < a.energy ∧ a.isPregnant = false := by
  intro a ha
  rw [updatedRabbits, List.mem_filter] at ha
  obtain ⟨hmem, hdec⟩ := ha
  obtain ⟨i, rb, hrb, rfl⟩ := mem_mapWI _ 0 _ a hmem
  refine ⟨of_decide_eq_true hdec, ?_⟩
  rw [updateRabbit_isPregnant]
  exact hpreg rb (List.mem_of_mem_filter hrb)

/-- Every fox surviving the behaviour pass has positive energy, and its
pregnancy flag is the one it entered the tick with. -/
theorem updatedFoxes_props (w : World) (nd : ℝ) (r : TickRand)
    (hpreg : ∀ b ∈ w.foxes, b.isPregnant = false) :
    ∀ a ∈ updatedFoxes w nd r, 0 < a.energy ∧ a.isPregnant = false := by
  intro a ha
  rw [updatedFoxes, List.mem_filter] at ha
  obtain ⟨hmem, hdec⟩ := ha
  obtain ⟨pr, hpr, rfl⟩ := List.mem_map.mp hmem
  rw [foxResults] at hpr
  obtain ⟨i, fox, hfox, rfl⟩ := mem_mapWI _ 0 _ pr hpr
  refine ⟨of_decide_eq_true hdec, ?_⟩
  rw [updateFox_isPregnant]
  exact hpreg fox hfox

end Lemmas

namespace Claims

open Ecosim Lemmas

/-- C2, counterexample: `setSpeedFactor 5.0` stores 5.0, not the clamped
3.0 the spec promises — the store action does not clamp. -/
theorem c2_counterexample : ¬ c2Claim := by
  intro h
  have h5 := h baseWorld 5
  rw [show (setSpeedFactor baseWorld 5).speedFactor = 5 from rfl] at h5
  rw [min_def, max_def] at h5
  norm_num at h5

/-- C2, amended: `setSpeedFactor` stores its argument verbatim; the
clamping to [0.1, 3.0] lives in the `Controls` increment and decrement
handlers, which keep any in-range speed factor in range. -/
theorem c2_amended : ∀ (w : World) (x : ℝ),
    (setSpeedFactor w x).speedFactor = x ∧
    (0.1 ≤ w.speedFactor → w.speedFactor ≤ 3 →
      0.1 ≤ (controlsSpeedUp w).speedFactor ∧ (controlsSpeedUp w).speedFactor ≤ 3 ∧
      0.1 ≤ (controlsSpeedDown w).speedFactor ∧ (controlsSpeedDown w).speedFactor ≤ 3) := by
  intro w x
  refine ⟨rfl, fun hlo hhi => ?_⟩
  have hup : (controlsSpeedUp w).speedFactor = min 3.0 (w.speedFactor + 0.1) := rfl
  have hdn : (controlsSpeedDown w).speedFactor = max 0.1 (w.speedFactor - 0.1) := rfl
  rw [hup, hdn]
  refine ⟨le_min (by norm_num) (by linarith), ?_, le_max_left _ _, max_le (by norm_num) (by linarith)⟩
  calc min 3.0 (w.speedFactor + 0.1) ≤ 3.0 := min_le_left _ _
    _ ≤ 3 := by norm_num

/-- C2, witness for the amended theorem at a concrete world and input. -/
theorem c2_witness :
    (setSpeedFactor baseWorld 7).speedFactor = 7 ∧
    (0.1 ≤ (controlsSpeedUp baseWorld).speedFactor ∧
      (controlsSpeedUp baseWorld).speedFactor ≤ 3 ∧
      0.1 ≤ (controlsSpeedDown baseWorld).speedFactor ∧
      (controlsSpeedDown baseWorld).speedFactor ≤ 3) :=
  ⟨(c2_amended baseWorld 7).1,
   (c2_amended baseWorld 7).2 (by norm_num [baseWorld]) (by norm_num [baseWorld])⟩

/-- C4: the per-frame driver does not invoke `updateAgents` while the
simulation is paused, so a paused tick leaves the world unchanged. -/
theorem c4_paused_noop : ∀ (w : World) (dt : ℝ) (r : TickRand),
    w.isPaused = true → (frameTick w dt r).1 = w := by
  intro w dt r h
  simp [frameTick, h]

/-- C4, witness: a paused tick on a concrete world returns it unchanged. -/
theorem c4_witness : (frameTick wPaused 5 o05).1 = wPaused :=
  c4_paused_noop wPaused 5 o05 rfl

/-- C10: `reset` reseeds 8 prey and 4 predators and zeroes the clock
while leaving the pause flag and the speed factor untouched (the zustand
`set` merges the partial state). -/
theorem c10_reset_preserves_controls : ∀ (w : World) (o : SpawnOracle),
    (Ecosim.reset w o).isPaused = w.isPaused ∧
    (Ecosim.reset w o).speedFactor = w.speedFactor ∧
    (Ecosim.reset w o).rabbits.length = 8 ∧
    (Ecosim.reset w o).foxes.length = 4 ∧
    (Ecosim.reset w o).simulationTime = 0 := by
  intro w o
  refine ⟨rfl, rfl, ?_, ?_, rfl⟩ <;> simp [Ecosim.reset]

/-- C5, counterexample: the factory samples each ground-plane coordinate
independently in [-0.8·R, 0.8·R] — a square, not a disc — so draws near
1 give a planar distance of about 1.13 × 0.8·R, above 0.8·R. -/
theorem c5_counterexample : ¬ c5Claim := by
  intro h
  have h1 := h 20 0.95 0.95 (by norm_num) (by norm_num) (by norm_num) (by norm_num) (by norm_num)
  have hx : ((randomPosition 20 0.95 0.95).x : ℝ) = 14.4 := by
    norm_num [randomPosition]
  have hz : ((randomPosition 20 0.95 0.95).z : ℝ) = 14.4 := by
    norm_num [randomPosition]
  rw [hx, hz] at h1
  have h2 : (16 : ℝ) < Real.sqrt ((14.4 : ℝ) ^ 2 + (14.4 : ℝ) ^ 2) := by
    rw [Real.lt_sqrt (by norm_num)]
    norm_num
  have h3 : (0.8 : ℝ) * 20 = 16 := by norm_num
  rw [h3] at h1
  linarith

/-- C5, amended: each ground-plane coordinate of a factory position is
within 0.8 × radius of the centre in absolute value (the spawn region is
the axis-aligned square of half-side 0.8 × radius, not the disc of that
radius), and the vertical component is 0. -/
theorem c5_amended : ∀ (worldSize r1 r2 : ℝ), 0 ≤ worldSize → 0 ≤ r1 → r1 < 1 → 0 ≤ r2 → r2 < 1 →
    |(randomPosition worldSize r1 r2).x| ≤ 0.8 * worldSize ∧
    (randomPosition worldSize r1 r2).y = 0 ∧
    |(randomPosition worldSize r1 r2).z| ≤ 0.8 * worldSize := by
  intro worldSize r1 r2 hw h1 h1' h2 h2'
  refine ⟨?_, rfl, ?_⟩
  · rw [show (randomPosition worldSize r1 r2).x = (r1 * 2 - 1) * worldSize * 0.8 from rfl]
    rw [abs_le]
    constructor <;> nlinarith
  · rw [show (randomPosition worldSize r1 r2).z = (r2 * 2 - 1) * worldSize * 0.8 from rfl]
    rw [abs_le]
    constructor <;> nlinarith

/-- C5, witness for the amended theorem at radius 20 with draws 0.5. -/
theorem c5_witness :
    |(randomPosition 20 0.5 0.5).x| ≤ 0.8 * 20 ∧
    (randomPosition 20 0.5 0.5).y = 0 ∧
    |(randomPosition 20 0.5 0.5).z| ≤ 0.8 * 20 :=
  c5_amended 20 0.5 0.5 (by norm_num) (by norm_num) (by norm_num) (by norm_num) (by norm_num)

/-- C3, amended: in a tick where the predator catches (closest prey
within the catch radius), its energy is overwritten with
`min 100 (energy + 60)`; the baseline and pregnancy consumption terms
are not charged in that tick. -/
theorem c3_amended (fox : Agent) (state : World) (dt : ℝ) (rabbits : List Agent)
    (d : MoveDraws) (rb : Agent)
    (hfind : findClosestRabbit fox rabbits = some rb)
    (hdist : Real.sqrt (distanceSquared fox.position rb.position) < 1.2) :
    (updateFox fox state dt rabbits d).1.energy = min 100 (fox.energy + 60) := by
  have h8 : Real.sqrt (distanceSquared fox.position rb.position) < 8 :=
    lt_trans hdist (by norm_num)
  simp only [updateFox, hfind, if_pos h8, if_pos hdist]

/-- C1, amended: the energy ≤ 0 death filter runs after the behaviour
pass but before the Reproduction Engine; in a tick with no birth (here:
no agent enters the tick pregnant) every published agent indeed has
energy > 0 — the mating costs cannot breach 0 because mating requires
energy above the species minimum (60 / 75).  The birth cost of 40,
however, is deducted after the filter (see the counterexample). -/
theorem c1_amended (w : World) (dt : ℝ) (r : TickRand)
    (hpreg : ∀ a ∈ w.rabbits ++ w.foxes, a.isPregnant = false) :
    snapshotEnergiesPositive (updateAgents w dt r).1 := by
  intro a ha
  have hpregR : ∀ b ∈ w.rabbits, b.isPregnant = false := fun b hb =>
    hpreg b (List.mem_append_left _ hb)
  have hpregF : ∀ b ∈ w.foxes, b.isPregnant = false := fun b hb =>
    hpreg b (List.mem_append_right _ hb)
  have hRprops := updatedRabbits_props w (dt * w.speedFactor) r hpregR
  have hFprops := updatedFoxes_props w (dt * w.speedFactor) r hpregF
  have hR := checkGBR_no_births (updatedRabbits w (dt * w.speedFactor) r) w.worldSize
    Species.rabbit r.rabbitRepro (fun b hb => (hRprops b hb).2) (fun b hb => (hRprops b hb).1)
  have hF := checkGBR_no_births (updatedFoxes w (dt * w.speedFactor) r) w.worldSize
    Species.fox r.foxRepro (fun b hb => (hFprops b hb).2) (fun b hb => (hFprops b hb).1)
  have hrabbits : (updateAgents w dt r).1.rabbits =
      (checkGenderBasedReproduction (updatedRabbits w (dt * w.speedFactor) r) w.worldSize
        Species.rabbit r.rabbitRepro).1 ++
      (checkGenderBasedReproduction (updatedRabbits w (dt * w.speedFactor) r) w.worldSize
        Species.rabbit r.rabbitRepro).2.1 := rfl
  have hfoxes : (updateAgents w dt r).1.foxes =
      (checkGenderBasedReproduction (updatedFoxes w (dt * w.speedFactor) r) w.worldSize
        Species.fox r.foxRepro).1 ++
      (checkGenderBasedReproduction (updatedFoxes w (dt * w.speedFactor) r) w.worldSize
        Species.fox r.foxRepro).2.1 := rfl
  rcases List.mem_append.mp ha with h | h
  · rw [hrabbits] at h
    rcases List.mem_append.mp h with h1 | h1
    · exact hR.1 a h1
    · rw [hR.2] at h1
      exact absurd h1 (List.not_mem_nil a)
  · rw [hfoxes] at h
    rcases List.mem_append.mp h with h1 | h1
    · exact hF.1 a h1
    · rw [hF.2] at h1
      exact absurd h1 (List.not_mem_nil a)

/-- C1, witness for the amended theorem: a tick on a world with one
non-pregnant rabbit publishes only positive energies. -/
theorem c1_witness : snapshotEnergiesPositive (updateAgents wOneRabbit 1 o05).1 :=
  c1_amended wOneRabbit 1 o05 (by
    intro a ha
    simp only [wOneRabbit, baseWorld] at ha
    simp only [List.append_nil] at ha
    rcases List.mem_cons.mp ha with rfl | h
    · rfl
    · exact absurd h (List.not_mem_nil a))

/-- C1, counterexample: a pregnant fox with energy 20 survives the death
filter at 16.7, then gives birth; the birth cost of 40 is charged after
the filter, so the published snapshot contains her at energy -23.3 ≤ 0.
She is removed only at the end of the next tick. -/
theorem c1_counterexample : ¬ c1Claim := by
  intro h
  have hfr : foxResults wBirth (1 * wBirth.speedFactor) o05 = [(motherMid, none)] := by
    have hsp : (1 : ℝ) * wBirth.speedFactor = 1 := by norm_num [wBirth, baseWorld]
    rw [foxResults, show wBirth.foxes = [mkAgent 5 Species.fox Gender.female 20 30 true 14]
      from rfl]
    simp only [hsp, mapWI]
    norm_num [updateFox, mkAgent, m05, o05, motherMid, findClosestRabbit, findClosestAux,
      keepWithinBounds, wBirth, baseWorld, Real.sqrt_zero]
  have hupf : updatedFoxes wBirth (1 * wBirth.speedFactor) o05 = [motherMid] := by
    rw [updatedFoxes, hfr]
    norm_num [motherMid, List.filter, decide_eq_true_eq]
  have hcgrF : checkGenderBasedReproduction [motherMid] wBirth.worldSize Species.fox
      o05.foxRepro = ([motherPub], [babyF 0, babyF 1], []) := by
    have hr2 : List.range 2 = [0, 1] := rfl
    have hr1 : List.range 1 = [0] := rfl
    norm_num [checkGenderBasedReproduction, mapWI, birthStep, motherMid, motherPub, babyF,
      createFox, randomPosition, randomVelocity, randomGender, repro05, o05, bd05, matchIdxs,
      mateLoop, findMate, reproductionParams, wBirth, baseWorld, hr2, hr1, Int.floor_one,
      beq_iff_eq, decide_eq_true_eq, List.filter, species_fox_ne_rabbit,
      gender_female_ne_male, gender_male_ne_female, show Int.toNat 2 = 2 from rfl]
  have hfinal : (updateAgents wBirth 1 o05).1.foxes = [motherPub] ++ [babyF 0, babyF 1] := by
    have hdef : (updateAgents wBirth 1 o05).1.foxes =
        (checkGenderBasedReproduction (updatedFoxes wBirth (1 * wBirth.speedFactor) o05)
          wBirth.worldSize Species.fox o05.foxRepro).1 ++
        (checkGenderBasedReproduction (updatedFoxes wBirth (1 * wBirth.speedFactor) o05)
          wBirth.worldSize Species.fox o05.foxRepro).2.1 := rfl
    rw [hdef, hupf, hcgrF]
  have hmem : motherPub ∈ (updateAgents wBirth 1 o05).1.rabbits ++
      (updateAgents wBirth 1 o05).1.foxes := by
    refine List.mem_append_right _ ?_
    rw [hfinal]
    exact List.mem_cons_self _ _
  have hcontr := h wBirth 1 o05 motherPub hmem
  norm_num [motherPub] at hcontr

/-- C3, counterexample: a non-pregnant fox with energy 30 catching at
delta 1 ends the tick at `min 100 (30 + 60) = 90`, not at the spec's
`min 100 (30 - 2.5·1 + 60) = 87.5`: the catch overwrites the energy,
dropping the baseline consumption. -/
theorem c3_counterexample : ¬ c3Claim := by
  intro h
  have hfind : findClosestRabbit (mkAgent 2 Species.fox Gender.male 30 0 false 0)
      [mkAgent 1 Species.rabbit Gender.male 50 0 false 0] =
      some (mkAgent 1 Species.rabbit Gender.male 50 0 false 0) := by
    simp [findClosestRabbit, findClosestAux]
  have hdist : Real.sqrt (distanceSquared
      (mkAgent 2 Species.fox Gender.male 30 0 false 0).position
      (mkAgent 1 Species.rabbit Gender.male 50 0 false 0).position) < 1.2 := by
    norm_num [mkAgent, distanceSquared, Real.sqrt_zero]
  have hclaim := h (mkAgent 2 Species.fox Gender.male 30 0 false 0) baseWorld 1
    [mkAgent 1 Species.rabbit Gender.male 50 0 false 0] m05
    (mkAgent 1 Species.rabbit Gender.male 50 0 false 0) hfind hdist
  have h8 : Real.sqrt (distanceSquared
      (mkAgent 2 Species.fox Gender.male 30 0 false 0).position
      (mkAgent 1 Species.rabbit Gender.male 50 0 false 0).position) < 8 :=
    lt_trans hdist (by norm_num)
  have hcode : (updateFox (mkAgent 2 Species.fox Gender.male 30 0 false 0) baseWorld 1
      [mkAgent 1 Species.rabbit Gender.male 50 0 false 0] m05).1.energy =
      min 100 ((mkAgent 2 Species.fox Gender.male 30 0 false 0).energy + 60) := by
    simp only [updateFox, hfind, if_pos h8, if_pos hdist]
  rw [hcode] at hclaim
  norm_num [mkAgent, min_def] at hclaim

/-- C3, witness for the amended theorem: the concrete catch tick above
indeed produces energy `min 100 (30 + 60)`. -/
theorem c3_witness :
    (updateFox (mkAgent 2 Species.fox Gender.male 30 0 false 0) baseWorld 1
      [mkAgent 1 Species.rabbit Gender.male 50 0 false 0] m05).1.energy =
      min 100 ((mkAgent 2 Species.fox Gender.male 30 0 false 0).energy + 60) :=
  c3_amended (mkAgent 2 Species.fox Gender.male 30 0 false 0) baseWorld 1
    [mkAgent 1 Species.rabbit Gender.male 50 0 false 0] m05
    (mkAgent 1 Species.rabbit Gender.male 50 0 false 0)
    (by simp [findClosestRabbit, findClosestAux])
    (by norm_num [mkAgent, distanceSquared, Real.sqrt_zero])

/-- C6: if the planar distance of a position exceeds the (positive)
arena radius, `keepWithinBounds` returns the position at the same planar
angle, planar distance exactly 0.95 × radius, vertical component
unchanged; a position within the radius is returned unchanged. -/
theorem c6_clampToArena (pos : Vec3) (radius : ℝ) (hr : 0 < radius) :
    (¬ Real.sqrt (pos.x * pos.x + pos.z * pos.z) > radius →
      keepWithinBounds pos radius = pos) ∧
    (Real.sqrt (pos.x * pos.x + pos.z * pos.z) > radius →
      Real.sqrt ((keepWithinBounds pos radius).x * (keepWithinBounds pos radius).x +
        (keepWithinBounds pos radius).z * (keepWithinBounds pos radius).z) = 0.95 * radius ∧
      (keepWithinBounds pos radius).y = pos.y ∧
      atan2 (keepWithinBounds pos radius).z (keepWithinBounds pos radius).x =
        atan2 pos.z pos.x) := by
  constructor
  · intro h
    rw [keepWithinBounds, if_neg h]
  · intro h
    have hkwb : keepWithinBounds pos radius =
        ({ x := Real.cos (atan2 pos.z pos.x) * radius * 0.95
           y := pos.y
           z := Real.sin (atan2 pos.z pos.x) * radius * 0.95 } : Vec3) := by
      rw [keepWithinBounds, if_pos h]
    rw [hkwb]
    refine ⟨?_, rfl, ?_⟩
    · have hsum : Real.cos (atan2 pos.z pos.x) * radius * 0.95 *
          (Real.cos (atan2 pos.z pos.x) * radius * 0.95) +
          Real.sin (atan2 pos.z pos.x) * radius * 0.95 *
          (Real.sin (atan2 pos.z pos.x) * radius * 0.95) =
          (0.95 * radius) ^ 2 *
            (Real.sin (atan2 pos.z pos.x) ^ 2 + Real.cos (atan2 pos.z pos.x) ^ 2) := by
        ring
      show Real.sqrt (Real.cos (atan2 pos.z pos.x) * radius * 0.95 *
          (Real.cos (atan2 pos.z pos.x) * radius * 0.95) +
          Real.sin (atan2 pos.z pos.x) * radius * 0.95 *
          (Real.sin (atan2 pos.z pos.x) * radius * 0.95)) = 0.95 * radius
      rw [hsum, Real.sin_sq_add_cos_sq, mul_one]
      exact Real.sqrt_sq (by positivity)
    · show atan2 (Real.sin (atan2 pos.z pos.x) * radius * 0.95)
        (Real.cos (atan2 pos.z pos.x) * radius * 0.95) = atan2 pos.z pos.x
      rw [mul_assoc (Real.sin (atan2 pos.z pos.x)), mul_assoc (Real.cos (atan2 pos.z pos.x))]
      exact atan2_scaled _ (radius * 0.95) (by positivity) (atan2_mem_Ioc pos.z pos.x)

/-- C6, witness: the position (3, 7, 4) at radius 2 (planar distance 5)
is pulled back to planar distance 1.9 at the same angle with vertical 7
kept; the position (1, 5, 1) at radius 2 (planar distance √2) is
returned unchanged. -/
theorem c6_witness :
    (Real.sqrt ((keepWithinBounds c6pos 2).x * (keepWithinBounds c6pos 2).x +
        (keepWithinBounds c6pos 2).z * (keepWithinBounds c6pos 2).z) = 0.95 * 2 ∧
      (keepWithinBounds c6pos 2).y = c6pos.y ∧
      atan2 (keepWithinBounds c6pos 2).z (keepWithinBounds c6pos 2).x =
        atan2 c6pos.z c6pos.x) ∧
    keepWithinBounds ⟨1, 5, 1⟩ 2 = ⟨1, 5, 1⟩ := by
  constructor
  · refine (c6_clampToArena c6pos 2 (by norm_num)).2 ?_
    have h25 : Real.sqrt (c6pos.x * c6pos.x + c6pos.z * c6pos.z) = 5 := by
      rw [show c6pos.x * c6pos.x + c6pos.z * c6pos.z = 5 ^ 2 by norm_num [c6pos]]
      exact Real.sqrt_sq (by norm_num)
    rw [h25]
    norm_num
  · refine (c6_clampToArena ⟨1, 5, 1⟩ 2 (by norm_num)).1 ?_
    rw [not_lt]
    refine Real.sqrt_le_iff.mpr ?_
    norm_num

/-- C8: every mating the Reproduction Engine records pairs a
non-pregnant female with a non-pregnant male, both above the species
minimum energy and age and past their cooldown, within mating distance —
for every input population and every random oracle.  Hence a pair with
the same gender, a pregnant member, or any gate violated never produces
a pregnancy, regardless of proximity or random draw. -/
theorem c8_mating_gates (agents : List Agent) (ws : ℝ) (sp : Species) (o : ReproOracle) :
    ∀ e ∈ (checkGenderBasedReproduction agents ws sp o).2.2,
      eventWellFormed (reproductionParams sp) e := by
  intro e he
  have hdef : (checkGenderBasedReproduction agents ws sp o).2.2 =
      (mateLoop (reproductionParams sp) o
        (matchIdxs ((mapWI (birthStep sp ws o) 0 agents).map Prod.fst)
          (fun a => a.gender == Gender.male && !a.isPregnant))
        (matchIdxs ((mapWI (birthStep sp ws o) 0 agents).map Prod.fst)
          (fun a => a.gender == Gender.female && !a.isPregnant))
        ((mapWI (birthStep sp ws o) 0 agents).map Prod.fst) []).2 := rfl
  rw [hdef] at he
  refine mateLoop_events _ o _ _ _ [] (matchIdxs_nodup _ _) ?_ ?_ (by simp) e he
  · intro i hi
    obtain ⟨a, hga, hpred⟩ := matchIdxs_spec _ _ i hi
    simp only [Bool.and_eq_true, beq_iff_eq, Bool.not_eq_true'] at hpred
    exact ⟨a, hga, hpred.1, hpred.2⟩
  · intro i hi
    obtain ⟨a, hga, hpred⟩ := matchIdxs_spec _ _ i hi
    simp only [Bool.and_eq_true, beq_iff_eq, Bool.not_eq_true'] at hpred
    exact ⟨a, hga, hpred.1, hpred.2⟩

/-- C8, witness: an eligible female and male rabbit at the same position
with a winning roll produce a recorded mating, and that event satisfies
every gate. -/
theorem c8_witness :
    eventWellFormed (reproductionParams Species.rabbit) ⟨fEligible, mEligible⟩ :=
  c8_mating_gates [fEligible, mEligible] 20 Species.rabbit reproMate0 ⟨fEligible, mEligible⟩
    (by
      norm_num [checkGenderBasedReproduction, mapWI, birthStep, matchIdxs, mateLoop, findMate,
        reproductionParams, fEligible, mEligible, mkAgent, reproMate0, bd05, distanceSquared,
        Real.sqrt_zero, beq_iff_eq, gender_female_ne_male, gender_male_ne_female, List.filter,
        decide_eq_true_eq, show List.range 2 = [0, 1] from rfl])

/-- C7: a prey id reported as consumed this tick is absent from the
published prey collection (assuming, as uuids guarantee, that newborn
ids do not collide with existing rabbit ids), the predator pass reports
exactly one optional catch per predator, and each such report names at
most one prey. -/
theorem c7_predation_exclusivity (w : World) (dt : ℝ) (r : TickRand)
    (hfresh : ∀ i j, r.rabbitRepro.babyId i j ∉ w.rabbits.map Agent.id)
    (c : ℕ) (hc : some c ∈ ((updateAgents w dt r).2).foxCatches) :
    c ∉ ((updateAgents w dt r).1).rabbits.map Agent.id ∧
    ((updateAgents w dt r).2).foxCatches.length = w.foxes.length ∧
    ∀ oc ∈ ((updateAgents w dt r).2).foxCatches, oc.toList.length ≤ 1 := by
  have hlog : ((updateAgents w dt r).2).foxCatches =
      (foxResults w (dt * w.speedFactor) r).map Prod.snd := rfl
  rw [hlog] at hc
  obtain ⟨pr, hpr, hsnd⟩ := List.mem_map.mp hc
  have hpr' := hpr
  rw [foxResults] at hpr'
  obtain ⟨i, fox, hfoxmem, rfl⟩ := mem_mapWI _ 0 _ pr hpr'
  obtain ⟨rb0, hrb0, hrb0id⟩ := updateFox_eaten fox w (dt * w.speedFactor) w.rabbits
    (r.foxMove i) c hsnd
  have hcmem : c ∈ eatenRabbitIds w (dt * w.speedFactor) r := by
    rw [eatenRabbitIds]
    exact List.mem_filterMap.mpr ⟨_, hpr, hsnd⟩
  have hcid : c ∈ w.rabbits.map Agent.id := List.mem_map.mpr ⟨rb0, hrb0, hrb0id⟩
  refine ⟨?_, ?_, ?_⟩
  · intro hmem
    have hrabbits : ((updateAgents w dt r).1).rabbits =
        (checkGenderBasedReproduction (updatedRabbits w (dt * w.speedFactor) r) w.worldSize
          Species.rabbit r.rabbitRepro).1 ++
        (checkGenderBasedReproduction (updatedRabbits w (dt * w.speedFactor) r) w.worldSize
          Species.rabbit r.rabbitRepro).2.1 := rfl
    rw [hrabbits] at hmem
    obtain ⟨a, ha, haid⟩ := List.mem_map.mp hmem
    have hsurv : ∀ s ∈ updatedRabbits w (dt * w.speedFactor) r, s.id ≠ c := by
      intro s hs
      rw [updatedRabbits, List.mem_filter] at hs
      obtain ⟨hs1, _⟩ := hs
      obtain ⟨k, rb, hrbmem, rfl⟩ := mem_mapWI _ 0 _ s hs1
      rw [updateRabbit_id]
      rw [List.mem_filter] at hrbmem
      intro hEq
      have hnc := hrbmem.2
      rw [hEq, Bool.not_eq_true'] at hnc
      have hct : (eatenRabbitIds w (dt * w.speedFactor) r).contains c = true :=
        List.elem_iff.mpr hcmem
      rw [hct] at hnc
      exact Bool.noConfusion hnc
    rcases List.mem_append.mp ha with ha1 | ha1
    · have hafter : ∀ b ∈ (mapWI (birthStep Species.rabbit w.worldSize r.rabbitRepro) 0
          (updatedRabbits w (dt * w.speedFactor) r)).map Prod.fst, b.id ≠ c := by
        intro b hb
        obtain ⟨pb, hpb, rfl⟩ := List.mem_map.mp hb
        obtain ⟨k, s, hsmem, rfl⟩ := mem_mapWI _ 0 _ pb hpb
        rw [birthStep_fst_id]
        exact hsurv s hsmem
      have hdef1 : (checkGenderBasedReproduction (updatedRabbits w (dt * w.speedFactor) r)
          w.worldSize Species.rabbit r.rabbitRepro).1 =
          (mateLoop (reproductionParams Species.rabbit) r.rabbitRepro
            (matchIdxs ((mapWI (birthStep Species.rabbit w.worldSize r.rabbitRepro) 0
                (updatedRabbits w (dt * w.speedFactor) r)).map Prod.fst)
              (fun a => a.gender == Gender.male && !a.isPregnant))
            (matchIdxs ((mapWI (birthStep Species.rabbit w.worldSize r.rabbitRepro) 0
                (updatedRabbits w (dt * w.speedFactor) r)).map Prod.fst)
              (fun a => a.gender == Gender.female && !a.isPregnant))
            ((mapWI (birthStep Species.rabbit w.worldSize r.rabbitRepro) 0
              (updatedRabbits w (dt * w.speedFactor) r)).map Prod.fst) []).1 := rfl
      rw [hdef1] at ha1
      exact mateLoop_forall (P := fun b => b.id ≠ c) (reproductionParams Species.rabbit)
        r.rabbitRepro _ (fun f hf _ => hf) (fun m hm _ => hm) _ _ [] hafter a ha1 haid
    · have hdef2 : (checkGenderBasedReproduction (updatedRabbits w (dt * w.speedFactor) r)
          w.worldSize Species.rabbit r.rabbitRepro).2.1 =
          ((mapWI (birthStep Species.rabbit w.worldSize r.rabbitRepro) 0
            (updatedRabbits w (dt * w.speedFactor) r)).map Prod.snd).flatten := rfl
      rw [hdef2] at ha1
      obtain ⟨bl, hbl, hab⟩ := List.mem_flatten.mp ha1
      obtain ⟨pb, hpb, rfl⟩ := List.mem_map.mp hbl
      obtain ⟨k, s, hsmem, rfl⟩ := mem_mapWI _ 0 _ pb hpb
      obtain ⟨j, hbid⟩ := birthStep_snd_ids _ _ _ k s a hab
      rw [haid] at hbid
      exact hfresh k j (hbid ▸ hcid)
  · rw [hlog, foxResults, List.length_map, length_mapWI]
  · intro oc hoc
    cases oc <;> simp

/-- C7, witness: in the one-fox one-rabbit catch scenario the consumed
rabbit id 1 is absent from the published prey list, with one catch
report for the one predator. -/
theorem c7_witness :
    1 ∉ ((updateAgents wHunt 1 o05).1).rabbits.map Agent.id ∧
    ((updateAgents wHunt 1 o05).2).foxCatches.length = wHunt.foxes.length ∧
    ∀ oc ∈ ((updateAgents wHunt 1 o05).2).foxCatches, oc.toList.length ≤ 1 :=
  c7_predation_exclusivity wHunt 1 o05
    (by
      intro i j
      simp [o05, repro05, wHunt, baseWorld, mkAgent]
      omega)
    1
    (by
      have hdef : ((updateAgents wHunt 1 o05).2).foxCatches =
          (foxResults wHunt (1 * wHunt.speedFactor) o05).map Prod.snd := rfl
      rw [hdef, foxResults,
        show wHunt.foxes = [mkAgent 2 Species.fox Gender.male 30 0 false 0] from rfl]
      simp only [show (1 : ℝ) * wHunt.speedFactor = 1 from by norm_num [wHunt, baseWorld], mapWI]
      norm_num [updateFox, mkAgent, m05, o05, wHunt, baseWorld, findClosestRabbit,
        findClosestAux, distanceSquared, keepWithinBounds, normalizeVector, Real.sqrt_zero,
        min_def])

/-- C9: with two predators both within catch radius of the same single
prey, each registers the catch on that prey and each gains the full meal
(energy `min 100 (30+60) = 90`), while the prey is removed once: the
published prey list is empty and both predators are published. -/
theorem c9_double_catch :
    ((updateAgents wDoubleCatch 1 o05).2).foxCatches = [some 1, some 1] ∧
    ((updateAgents wDoubleCatch 1 o05).1).rabbits = [] ∧
    ((updateAgents wDoubleCatch 1 o05).1).foxes.map Agent.energy = [90, 90] ∧
    ((updateAgents wDoubleCatch 1 o05).1).foxes.map Agent.id = [2, 3] := by
  have hsp : (1 : ℝ) * wDoubleCatch.speedFactor = 1 := by norm_num [wDoubleCatch, baseWorld]
  have hfr : foxResults wDoubleCatch (1 * wDoubleCatch.speedFactor) o05 =
      [(caughtFox 2, some 1), (caughtFox 3, some 1)] := by
    rw [foxResults, show wDoubleCatch.foxes = [mkAgent 2 Species.fox Gender.male 30 0 false 0,
      mkAgent 3 Species.fox Gender.male 30 0 false 0] from rfl]
    simp only [hsp, mapWI]
    norm_num [updateFox, mkAgent, m05, o05, caughtFox, wDoubleCatch, baseWorld,
      findClosestRabbit, findClosestAux, distanceSquared, keepWithinBounds, normalizeVector,
      Real.sqrt_zero, min_def]
  have heat : eatenRabbitIds wDoubleCatch (1 * wDoubleCatch.speedFactor) o05 = [1, 1] := by
    rw [eatenRabbitIds, hfr]
    rfl
  have hupf : updatedFoxes wDoubleCatch (1 * wDoubleCatch.speedFactor) o05 =
      [caughtFox 2, caughtFox 3] := by
    rw [updatedFoxes, hfr]
    norm_num [caughtFox, List.filter, decide_eq_true_eq]
  have hupr : updatedRabbits wDoubleCatch (1 * wDoubleCatch.speedFactor) o05 = [] := by
    rw [updatedRabbits, heat,
      show wDoubleCatch.rabbits = [mkAgent 1 Species.rabbit Gender.male 50 0 false 0] from rfl]
    norm_num [mkAgent, List.filter, mapWI,
      show (([1, 1] : List ℕ).contains 1) = true from rfl]
  have hcgrR : checkGenderBasedReproduction [] wDoubleCatch.worldSize Species.rabbit
      o05.rabbitRepro = ([], [], []) := by
    simp [checkGenderBasedReproduction, mapWI, matchIdxs, mateLoop]
  have hcgrF : checkGenderBasedReproduction [caughtFox 2, caughtFox 3] wDoubleCatch.worldSize
      Species.fox o05.foxRepro = ([caughtFox 2, caughtFox 3], [], []) := by
    norm_num [checkGenderBasedReproduction, mapWI, birthStep, matchIdxs, mateLoop, caughtFox,
      reproductionParams, o05, repro05, beq_iff_eq, gender_male_ne_female,
      species_fox_ne_rabbit, List.filter, decide_eq_true_eq,
      show List.range 2 = [0, 1] from rfl]
  have hdefC : ((updateAgents wDoubleCatch 1 o05).2).foxCatches =
      (foxResults wDoubleCatch (1 * wDoubleCatch.speedFactor) o05).map Prod.snd := rfl
  have hdefR : ((updateAgents wDoubleCatch 1 o05).1).rabbits =
      (checkGenderBasedReproduction (updatedRabbits wDoubleCatch
        (1 * wDoubleCatch.speedFactor) o05) wDoubleCatch.worldSize Species.rabbit
        o05.rabbitRepro).1 ++
      (checkGenderBasedReproduction (updatedRabbits wDoubleCatch
        (1 * wDoubleCatch.speedFactor) o05) wDoubleCatch.worldSize Species.rabbit
        o05.rabbitRepro).2.1 := rfl
  have hdefF : ((updateAgents wDoubleCatch 1 o05).1).foxes =
      (checkGenderBasedReproduction (updatedFoxes wDoubleCatch
        (1 * wDoubleCatch.speedFactor) o05) wDoubleCatch.worldSize Species.fox
        o05.foxRepro).1 ++
      (checkGenderBasedReproduction (updatedFoxes wDoubleCatch
        (1 * wDoubleCatch.speedFactor) o05) wDoubleCatch.worldSize Species.fox
        o05.foxRepro).2.1 := rfl
  refine ⟨?_, ?_, ?_, ?_⟩
  · rw [hdefC, hfr]
    rfl
  · rw [hdefR, hupr, hcgrR]
    rfl
  · rw [hdefF, hupf, hcgrF]
    norm_num [caughtFox]
  · rw [hdefF, hupf, hcgrF]
    norm_num [caughtFox]

end Claims

end Ecosim
